import Mathlib

/-!
Formal model of the `python-weatherkit` client (`apple_weatherkit` package):
the `DataSetType` enumeration (`__init__.py`) and the `WeatherKitApiClient`
class (`client.py`) — JWT minting, query construction, lazy session/retry
initialization, request dispatch and error classification.

The HTTP transport and the JWT signing primitive are external collaborators:
they are modelled as abstract inputs (the final response or raised exception
delivered by the transport; the signed claim/header fields of the token),
following the collaborator interfaces the code consumes.
-/

namespace WeatherKit

/-- The `DataSetType` string enumeration from `apple_weatherkit/__init__.py`. -/
inductive DataSetType where
  | currentWeather
  | dailyForecast
  | hourlyForecast
  | nextHourForecast
  | weatherAlerts
deriving DecidableEq, Repr

/-- Wire string value of each enumeration member (the `StrEnum` values). -/
def DataSetType.toWire : DataSetType → String
  | .currentWeather => "currentWeather"
  | .dailyForecast => "forecastDaily"
  | .hourlyForecast => "forecastHourly"
  | .nextHourForecast => "forecastNextHour"
  | .weatherAlerts => "weatherAlerts"

/-- Reverse lookup of a wire token in the enumeration table. -/
def parseDataSet (s : String) : Option DataSetType :=
  if s = "currentWeather" then some .currentWeather
  else if s = "forecastDaily" then some .dailyForecast
  else if s = "forecastHourly" then some .hourlyForecast
  else if s = "forecastNextHour" then some .nextHourForecast
  else if s = "weatherAlerts" then some .weatherAlerts
  else none

/-! ## Datetime model

A Python `datetime` is modelled at second resolution as a wall-clock reading
(seconds since 1970-01-01T00:00:00 on that wall clock, as an integer) together
with an optional UTC offset in seconds (`tzinfo`; `none` models a naive
datetime). -/

structure PyDatetime where
  naive : Int
  tzOffset : Option Int
deriving DecidableEq, Repr

/-- `dt.astimezone(tz=UTC)` on an aware datetime: the wall clock moves to UTC
(subtract the offset), the attached zone becomes UTC. -/
def astimezoneUTC (dt : PyDatetime) : PyDatetime :=
  { naive := dt.naive - dt.tzOffset.getD 0, tzOffset := some 0 }

/-- `dt.replace(tzinfo=None)`: keep the wall clock, drop the zone. -/
def replaceTzinfoNone (dt : PyDatetime) : PyDatetime :=
  { dt with tzOffset := none }

/-- The normalization in `get_weather_data`:
`if dt.tzinfo: dt = dt.astimezone(tz=UTC).replace(tzinfo=None)`. -/
def normalizeHourly (dt : PyDatetime) : PyDatetime :=
  if dt.tzOffset.isSome then replaceTzinfoNone (astimezoneUTC dt) else dt

/-- The UTC instant a datetime denotes (naive datetimes read as UTC). -/
def utcEpoch (dt : PyDatetime) : Int :=
  dt.naive - dt.tzOffset.getD 0

/-- Civil date from a day count since 1970-01-01 (proleptic Gregorian). -/
def civilFromDays (z₀ : Int) : Int × Int × Int :=
  let z := z₀ + 719468
  let era := z.ediv 146097
  let doe := z - era * 146097
  let yoe := (doe - doe.ediv 1460 + doe.ediv 36524 - doe.ediv 146096).ediv 365
  let y := yoe + era * 400
  let doy := doe - (365 * yoe + yoe.ediv 4 - yoe.ediv 100)
  let mp := (5 * doy + 2).ediv 153
  let d := doy - (153 * mp + 2).ediv 5 + 1
  let m := mp + (if mp < 10 then 3 else (-9 : Int))
  (y + (if m ≤ 2 then 1 else 0), m, d)

/-- Left-pad the decimal rendering of `n` with zeros to width `w`. -/
def padNat (w : Nat) (n : Nat) : String :=
  let s := toString n
  String.mk (List.replicate (w - s.length) '0') ++ s

/-- `datetime.isoformat()` of a naive datetime at second resolution:
`YYYY-MM-DDTHH:MM:SS` of the wall-clock seconds value `t`. -/
def isoformat (t : Int) : String :=
  let days := t.ediv 86400
  let secs := (t.emod 86400).toNat
  let ymd := civilFromDays days
  padNat 4 ymd.1.toNat ++ "-" ++ padNat 2 ymd.2.1.toNat ++ "-" ++
    padNat 2 ymd.2.2.toNat ++ "T" ++ padNat 2 (secs / 3600) ++ ":" ++
    padNat 2 (secs % 3600 / 60) ++ ":" ++ padNat 2 (secs % 60)

/-- The query value `f"{dt.isoformat()}Z"` built in `get_weather_data` from an
already-normalized `hourly_start`/`hourly_end`. -/
def hourlyQueryValue (dt : PyDatetime) : String :=
  isoformat (normalizeHourly dt).naive ++ "Z"

/-! ## Token minting (`_generate_jwt`) -/

/-- The credentials held by `WeatherKitApiClient` after construction. -/
structure Credentials where
  keyId : String
  serviceId : String
  teamId : String
  keyPem : String
deriving DecidableEq, Repr

/-- The header fields `_generate_jwt` passes to `jwt.encode` (plus the signing
algorithm). -/
structure JwtHeader where
  kid : String
  id : String
  alg : String
deriving DecidableEq, Repr

/-- The claims `_generate_jwt` passes to `jwt.encode`; times are seconds since
the epoch. -/
structure JwtPayload where
  iss : String
  iat : Int
  exp : Int
  sub : String
deriving DecidableEq, Repr

structure JwtToken where
  header : JwtHeader
  payload : JwtPayload
deriving DecidableEq, Repr

/-- `_generate_jwt`, with the two `datetime.now(tz=UTC)` calls made explicit:
`now₁` is the clock reading taken for `iat`, `now₂` the (immediately
following) reading taken for `exp`. -/
def generateJwt (c : Credentials) (now₁ now₂ : Int) : JwtToken :=
  { header := { kid := c.keyId, id := c.teamId ++ "." ++ c.serviceId,
                alg := "ES256" },
    payload := { iss := c.teamId, iat := now₁, exp := now₂ + 600,
                 sub := c.serviceId } }

/-! ## Query construction (`urllib.parse.urlencode`) -/

/-- Characters `urllib.parse.quote_plus` leaves unescaped (ASCII letters,
digits, `_`, `.`, `-`, `~`). -/
def isUrlSafe (c : Char) : Bool :=
  c.isAlpha || c.isDigit || c = '_' || c = '.' || c = '-' || c = '~'

/-- Uppercase hexadecimal digit for `n < 16`. -/
def hexDigitChar (n : Nat) : Char :=
  if n < 10 then Char.ofNat (48 + n) else Char.ofNat (55 + n)

/-- `quote_plus` on a single character (for characters below U+0100, which
covers every string this client encodes): safe characters pass through, space
becomes `+`, anything else becomes `%XX`. -/
def quotePlusChar (c : Char) : List Char :=
  if isUrlSafe c then [c]
  else if c = ' ' then ['+']
  else ['%', hexDigitChar (c.toNat / 16), hexDigitChar (c.toNat % 16)]

/-- `urllib.parse.quote_plus` over a whole string. -/
def quotePlus (s : String) : String :=
  String.mk (s.data.flatMap quotePlusChar)

/-- Python `sep.join(l)` written as a structural recursion; proved equal to
`String.intercalate` in `strJoin_eq_intercalate`. -/
def strJoin (sep : String) : List String → String
  | [] => ""
  | [a] => a
  | a :: rest => a ++ sep ++ strJoin sep rest

/-- `urllib.parse.urlencode`: `quote_plus` each key and value, join pairs with
`=` and `&`. -/
def urlencodePy (ps : List (String × String)) : String :=
  strJoin "&" (ps.map fun p => quotePlus p.1 ++ "=" ++ quotePlus p.2)

/-- Numeric value of a hexadecimal digit character. -/
def hexVal (c : Char) : Nat :=
  if c.isDigit then c.toNat - 48
  else if 'A' ≤ c ∧ c ≤ 'F' then c.toNat - 55
  else if 'a' ≤ c ∧ c ≤ 'f' then c.toNat - 87
  else 0

/-- Percent-decoding with `+` → space, on character lists
(`urllib.parse.unquote_plus`). -/
def unquotePlusChars : List Char → List Char
  | [] => []
  | '+' :: rest => ' ' :: unquotePlusChars rest
  | '%' :: h :: l :: rest =>
      Char.ofNat (16 * hexVal h + hexVal l) :: unquotePlusChars rest
  | c :: rest => c :: unquotePlusChars rest

def unquotePlus (s : String) : String :=
  String.mk (unquotePlusChars s.data)

/-- Split a character list on a separator character. -/
def splitOnCharList (sep : Char) : List Char → List (List Char)
  | [] => [[]]
  | c :: rest =>
      let r := splitOnCharList sep rest
      if c = sep then [] :: r
      else (c :: r.headD []) :: r.tail

/-- Split a query piece `k=v` at its first `=` and percent-decode both sides. -/
def parseQueryPair (piece : List Char) : String × String :=
  let k := piece.takeWhile (· ≠ '=')
  let v := (piece.dropWhile (· ≠ '=')).tail
  (unquotePlus (String.mk k), unquotePlus (String.mk v))

/-- Parse a URL query string back into its decoded key/value pairs. -/
def parseQuery (q : String) : List (String × String) :=
  (splitOnCharList '&' q.data).map parseQueryPair

/-- The query dictionary `get_weather_data` passes to `urlencode`, after the
hourly datetimes have been defaulted and normalized. -/
def weatherQueryParams (ds : List DataSetType) (hs he : PyDatetime) :
    List (String × String) :=
  [("dataSets", strJoin "," (ds.map DataSetType.toWire)),
   ("hourlyStart", hourlyQueryValue hs),
   ("hourlyEnd", hourlyQueryValue he)]

/-- The encoded query string of `get_weather_data`. -/
def weatherQueryString (ds : List DataSetType) (hs he : PyDatetime) : String :=
  urlencodePy (weatherQueryParams ds hs he)

/-! ## Hourly start/end defaulting in `get_weather_data`

`hourly_start = hourly_start or datetime.now(tz=UTC)` and
`hourly_end = hourly_end or datetime.now(tz=UTC) + timedelta(days=1)`; a
`datetime` object is always truthy, so the defaults apply exactly when the
argument is `None`. `now₁` and `now₂` are the two clock readings. -/

def resolveHourlyStart (now₁ : Int) (hs : Option PyDatetime) : PyDatetime :=
  normalizeHourly (hs.getD { naive := now₁, tzOffset := some 0 })

def resolveHourlyEnd (now₂ : Int) (he : Option PyDatetime) : PyDatetime :=
  normalizeHourly (he.getD { naive := now₂ + 86400, tzOffset := some 0 })

/-! ## `get_availability`

`get_availability` returns the value of `_api_wrapper` — the JSON-decoded
response body — directly, with no conversion of its elements. For a body that
decodes to an array of strings the returned list is that array verbatim. -/

def getAvailabilityResult (body : List String) : List String := body

/-! ## Retry configuration and lazy initialization (`_api_wrapper`) -/

/-- The `ExponentialRetry` options object built in `_api_wrapper`.
`retryAllServerErrors` models the executor's documented default of also
retrying every 5xx status (noted in the source comment
`# automatically includes any 5xx errors`). -/
structure ExponentialRetryOptions where
  attempts : Nat
  statuses : List Nat
  startTimeout : Nat
  retryAllServerErrors : Bool
deriving DecidableEq, Repr

/-- The options passed to `ExponentialRetry` in `_api_wrapper`:
`attempts=3, statuses=(404, 401, 403), start_timeout=1`. -/
def retryOptions : ExponentialRetryOptions :=
  { attempts := 3, statuses := [404, 401, 403], startTimeout := 1,
    retryAllServerErrors := true }

/-- Whether the retry executor retries a response with the given status. -/
def shouldRetryStatus (o : ExponentialRetryOptions) (s : Nat) : Bool :=
  s ∈ o.statuses || (o.retryAllServerErrors && 500 ≤ s)

/-- The argument of `async_timeout.timeout(...)` wrapping the whole dispatch,
in seconds. -/
def apiWrapperTimeoutSeconds : Nat := 20

/-- The lazily-initialized session/executor fields of the client. `session`
records whether `self._session` is set; `client` holds the retry options
`self._client` was configured with, if set. -/
structure LazyState where
  session : Bool
  client : Option ExponentialRetryOptions
deriving DecidableEq, Repr

/-- The two lazy-initialization statements at the top of `_api_wrapper`:
create the session if absent, then the retry client if absent. -/
def ensureInit (st : LazyState) : LazyState :=
  let st₁ := if st.session then st else { st with session := true }
  if st₁.client.isSome then st₁ else { st₁ with client := some retryOptions }

/-! ## Request dispatch and error classification (`_api_wrapper`)

The transport (retrying HTTP client) is an external collaborator: a dispatch
either yields a final response — status, body text, and the result of JSON
decoding the body — or raises an exception. Exceptions are classified by the
`except` clauses of `_api_wrapper`, modelled by Python class. -/

/-- Exceptions that can escape the `try` block of `_api_wrapper`, tagged by
the Python classes its `except` clauses test, each carrying its `str` form. -/
inductive PyException where
  /-- Models `asyncio.TimeoutError` raised by `async_timeout`. -/
  | timeoutError (message : String)
  /-- Models `aiohttp.ClientResponseError` (a `ClientError`), as raised by
  `response.raise_for_status()`. -/
  | clientResponseError (status : Nat) (message : String)
  /-- Models any other `aiohttp.ClientError` (connection failures, etc.). -/
  | clientError (message : String)
  /-- Models `socket.gaierror` (DNS resolution failure). -/
  | gaierror (message : String)
  /-- Models `json.JSONDecodeError` (a `ValueError`) from decoding the body. -/
  | jsonDecodeError (message : String)
  /-- Models any other unexpected exception. -/
  | otherError (message : String)
deriving DecidableEq, Repr

def PyException.message : PyException → String
  | .timeoutError m => m
  | .clientResponseError _ m => m
  | .clientError m => m
  | .gaierror m => m
  | .jsonDecodeError m => m
  | .otherError m => m

/-- Membership test of the `except asyncio.TimeoutError` clause. -/
def PyException.isTimeout : PyException → Bool
  | .timeoutError _ => true
  | _ => false

/-- Membership test of the `except (aiohttp.ClientError, socket.gaierror)`
clause: `ClientResponseError` is a subclass of `ClientError`. -/
def PyException.isClientOrGaiError : PyException → Bool
  | .clientResponseError _ _ => true
  | .clientError _ => true
  | .gaierror _ => true
  | _ => false

/-- Outcome of awaiting the retrying transport for one dispatch: the final
response after any retries (status, body text, JSON decode result of the
body), or an exception raised while communicating. -/
inductive FetchOutcome where
  | response (status : Nat) (bodyText : String) (jsonBody : Option String)
  | raised (e : PyException)
deriving DecidableEq, Repr

/-- The three exception classes of the client, all subclasses of
`WeatherKitApiClientError`. -/
inductive ApiError where
  | authenticationError (message : String)
  | communicationError (message : String)
  | genericError (message : String)
deriving DecidableEq, Repr

/-- Exceptions raised inside the `try` block: either the client's own
authentication error or a Python exception to be classified. -/
inductive RaisedInTry where
  | weatherKitAuth (message : String)
  | py (e : PyException)
deriving DecidableEq, Repr

/-- `response.raise_for_status()`: raises `ClientResponseError` exactly for
statuses at or above 400. -/
def raiseForStatus (status : Nat) : Option PyException :=
  if 400 ≤ status then some (.clientResponseError status "") else none

/-- The body of the `try` block of `_api_wrapper`, from the point the final
response (or transport exception) is available: check for 401/403 and raise
the authentication error with the body text, then `raise_for_status`, then
return the decoded JSON body. -/
def apiWrapperTry (r : FetchOutcome) : Except RaisedInTry String :=
  match r with
  | .raised e => .error (.py e)
  | .response status bodyText jsonBody =>
      if status = 401 ∨ status = 403 then
        .error (.weatherKitAuth ("Invalid credentials: " ++ bodyText))
      else
        match raiseForStatus status with
        | some e => .error (.py e)
        | none =>
            match jsonBody with
            | some doc => .ok doc
            | none => .error (.py (.jsonDecodeError bodyText))

/-- The `except` clauses of `_api_wrapper`, in source order: re-raise the
authentication error, map `asyncio.TimeoutError` and
`(aiohttp.ClientError, socket.gaierror)` to the communication error, and wrap
everything else in the generic client error. -/
def classifyRaised (e : RaisedInTry) : ApiError :=
  match e with
  | .weatherKitAuth m => .authenticationError m
  | .py e =>
      if e.isTimeout then
        .communicationError ("Timeout error fetching information: " ++ e.message)
      else if e.isClientOrGaiError then
        .communicationError ("Error fetching information: " ++ e.message)
      else
        .genericError ("An unexpected error occurred: " ++ e.message)

/-- `_api_wrapper` from the final transport outcome to the value returned or
the exception surfaced to the caller. -/
def apiWrapper (r : FetchOutcome) : Except ApiError String :=
  match apiWrapperTry r with
  | .ok doc => .ok doc
  | .error e => .error (classifyRaised e)

/-! ## Two concurrent first calls (asyncio interleaving model)

The event loop is cooperative: a task runs uninterrupted until it reaches an
`await`. The lazy-initialization block at the top of `_api_wrapper` contains
no `await` (both `aiohttp.ClientSession()` and `RetryClient(...)` are plain
constructor calls), so it executes as one atomic step; the first suspension
point of a call is the awaited `self._client.request(...)`. A call is
therefore three task states: before the init block, suspended at the request,
and completed. A schedule is the order in which the event loop lets the two
tasks take their next step. -/

inductive TaskPc where
  | start
  | awaitingRequest
  | done
deriving DecidableEq, Repr

/-- Joint state of the client and two concurrent calls A and B, with counters
of how many sessions and retry clients have been constructed. -/
structure ConcState where
  lazy : LazyState
  sessionsCreated : Nat
  clientsCreated : Nat
  pcA : TaskPc
  pcB : TaskPc
deriving DecidableEq, Repr

/-- The lazy-initialization block of `_api_wrapper` with construction
counting: create the session if absent, then the retry client if absent. -/
def initBlockCounted (st : LazyState) (sc cc : Nat) : LazyState × Nat × Nat :=
  let p₁ := if st.session then (st, sc)
            else ({ st with session := true }, sc + 1)
  let p₂ := if p₁.1.client.isSome then (p₁.1, cc)
            else ({ p₁.1 with client := some retryOptions }, cc + 1)
  (p₂.1, p₁.2, p₂.2)

/-- One scheduler step of the given task (`false` = A, `true` = B): run the
atomic init block if the task has not started, complete the awaited request if
it is suspended, do nothing if it is done. -/
def stepTask (s : ConcState) (t : Bool) : ConcState :=
  let pc := if t then s.pcB else s.pcA
  match pc with
  | .start =>
      let r := initBlockCounted s.lazy s.sessionsCreated s.clientsCreated
      let s' := { s with lazy := r.1, sessionsCreated := r.2.1,
                         clientsCreated := r.2.2 }
      if t then { s' with pcB := .awaitingRequest }
      else { s' with pcA := .awaitingRequest }
  | .awaitingRequest =>
      if t then { s with pcB := .done } else { s with pcA := .done }
  | .done => s

/-- Run a schedule (list of task choices) from a state. -/
def runSchedule (s : ConcState) : List Bool → ConcState
  | [] => s
  | t :: rest => runSchedule (stepTask s t) rest

/-- A fresh client constructed with `session=None`, with two calls about to
make their first request. -/
def initialConcState : ConcState :=
  { lazy := { session := false, client := none },
    sessionsCreated := 0, clientsCreated := 0,
    pcA := .start, pcB := .start }

/-! ## Use of the `data_sets` argument in `get_weather_data`

`get_weather_data` reads `data_sets` once, in `",".join(data_sets)`; no
statement of the function mutates the list. The model returns the joined
query value together with the list object as it stands after the call. The
mutable default `[DataSetType.CURRENT_WEATHER]` is evaluated once at function
definition time and shared by every call that omits the argument, so its
state after a call is the input of the next defaulted call. -/

def getWeatherDataDataSetsUse (ds : List DataSetType) :
    String × List DataSetType :=
  (strJoin "," (ds.map DataSetType.toWire), ds)

/-- The default list object bound at `def` time. -/
def defaultDataSets : List DataSetType := [.currentWeather]

/-- The shared default list after `n` calls of `get_weather_data` that omit
`data_sets`. -/
def defaultAfterCalls : Nat → List DataSetType
  | 0 => defaultDataSets
  | n + 1 => (getWeatherDataDataSetsUse (defaultAfterCalls n)).2

/-- Bounded-codepoint check: every character of the string is below U+0100,
the range on which the `quote_plus` model is exact. -/
def allLatin1 (s : String) : Bool :=
  s.data.all fun c => c.toNat < 256

/-- Invariant of the two-task interleaving model: the construction counters
match the presence flags, and a task past its init block has seen both the
session and the retry client initialized. -/
def ConcInv (s : ConcState) : Prop :=
  (s.sessionsCreated = if s.lazy.session then 1 else 0) ∧
  (s.clientsCreated = if s.lazy.client.isSome then 1 else 0) ∧
  (s.pcA ≠ .start → s.lazy.session = true ∧ s.lazy.client.isSome = true) ∧
  (s.pcB ≠ .start → s.lazy.session = true ∧ s.lazy.client.isSome = true)

/-! ## General lemmas -/

theorem parseDataSet_toWire (s : String) (d : DataSetType)
    (h : parseDataSet s = some d) : DataSetType.toWire d = s := by
  cases d <;> unfold parseDataSet at h <;> split_ifs at h <;>
    simp_all [DataSetType.toWire]

theorem intercalate_go_eq_strJoin (s : String) :
    ∀ (l : List String) (acc : String),
      String.intercalate.go acc s l = strJoin s (acc :: l)
  | [], _ => rfl
  | a :: rest, acc => by
      rw [String.intercalate.go,
        intercalate_go_eq_strJoin s rest (acc ++ s ++ a)]
      cases rest with
      | nil => rfl
      | cons b bs => simp [strJoin, String.append_assoc]

theorem strJoin_eq_intercalate (s : String) (l : List String) :
    strJoin s l = String.intercalate s l := by
  cases l with
  | nil => rfl
  | cons a as => rw [String.intercalate, intercalate_go_eq_strJoin]

theorem hexVal_hexDigitChar : ∀ n < 16, hexVal (hexDigitChar n) = n := by
  decide

theorem unquotePlusChars_cons_of_ne (c : Char) (r : List Char)
    (h1 : c ≠ '+') (h2 : c ≠ '%') :
    unquotePlusChars (c :: r) = c :: unquotePlusChars r := by
  rw [unquotePlusChars.eq_def]
  split <;> simp_all

theorem unquote_quote_char (c : Char) (rest : List Char) (h : c.toNat < 256) :
    unquotePlusChars (quotePlusChar c ++ rest) = c :: unquotePlusChars rest := by
  unfold quotePlusChar
  split_ifs with hsafe hspace
  · have h1 : c ≠ '+' := by
      rintro rfl; exact absurd hsafe (by decide)
    have h2 : c ≠ '%' := by
      rintro rfl; exact absurd hsafe (by decide)
    simpa using unquotePlusChars_cons_of_ne c rest h1 h2
  · subst hspace
    rfl
  · have hdiv : c.toNat / 16 < 16 := Nat.div_lt_of_lt_mul (by omega)
    have hmod : c.toNat % 16 < 16 := Nat.mod_lt _ (by omega)
    show Char.ofNat (16 * hexVal (hexDigitChar (c.toNat / 16)) +
        hexVal (hexDigitChar (c.toNat % 16))) :: unquotePlusChars rest =
      c :: unquotePlusChars rest
    rw [hexVal_hexDigitChar _ hdiv, hexVal_hexDigitChar _ hmod,
      show 16 * (c.toNat / 16) + c.toNat % 16 = c.toNat by omega,
      Char.ofNat_toNat]

theorem unquote_quote_chars (l : List Char) (h : ∀ c ∈ l, c.toNat < 256) :
    unquotePlusChars (l.flatMap quotePlusChar) = l := by
  induction l with
  | nil => rfl
  | cons c cs ih =>
      rw [List.flatMap_cons, unquote_quote_char c _ (h c (by simp)),
        ih fun x hx => h x (List.mem_cons_of_mem _ hx)]

theorem allLatin1_chars {s : String} (h : allLatin1 s = true) :
    ∀ c ∈ s.data, c.toNat < 256 := by
  simpa [allLatin1] using h

theorem unquotePlus_quotePlus (s : String) (h : allLatin1 s = true) :
    unquotePlus (quotePlus s) = s := by
  show String.mk (unquotePlusChars (s.data.flatMap quotePlusChar)) = s
  rw [unquote_quote_chars s.data (allLatin1_chars h)]

theorem not_mem_quotePlusChar (x c : Char) (h : c.toNat < 256)
    (hx : isUrlSafe x = false) (hplus : x ≠ '+')
    (hpct : x ≠ '%') (hhex : ∀ n < 16, hexDigitChar n ≠ x) :
    x ∉ quotePlusChar c := by
  unfold quotePlusChar
  split_ifs with hsafe hspace
  · intro hm
    rw [List.mem_singleton] at hm
    subst hm
    rw [hx] at hsafe
    exact absurd hsafe (by simp)
  · intro hm
    rw [List.mem_singleton] at hm
    exact hplus hm
  · intro hm
    have hdiv : c.toNat / 16 < 16 := Nat.div_lt_of_lt_mul (by omega)
    have hmod : c.toNat % 16 < 16 := Nat.mod_lt _ (by omega)
    rw [List.mem_cons, List.mem_cons, List.mem_singleton] at hm
    rcases hm with hm | hm | hm
    · exact hpct hm
    · exact hhex _ hdiv hm.symm
    · exact hhex _ hmod hm.symm

theorem amp_not_mem_quotePlus (s : String) (h : allLatin1 s = true) :
    '&' ∉ (quotePlus s).data := by
  show '&' ∉ s.data.flatMap quotePlusChar
  rw [List.mem_flatMap]
  rintro ⟨c, hc, hm⟩
  exact not_mem_quotePlusChar '&' c (allLatin1_chars h c hc)
    (by decide) (by decide) (by decide) (by decide) hm

theorem splitOnCharList_append (sep : Char) (l r : List Char)
    (h : sep ∉ l) :
    splitOnCharList sep (l ++ sep :: r) = l :: splitOnCharList sep r := by
  induction l with
  | nil => simp [splitOnCharList]
  | cons c cs ih =>
      have hc : ¬(c = sep) := fun e => h (e ▸ List.mem_cons_self c cs)
      rw [List.cons_append, splitOnCharList, ih fun hm =>
        h (List.mem_cons_of_mem _ hm)]
      simp [hc]

theorem takeWhile_append_stop (p : Char → Bool) (a : List Char) (x : Char)
    (b : List Char) (ha : ∀ c ∈ a, p c = true) (hx : p x = false) :
    (a ++ x :: b).takeWhile p = a ∧ (a ++ x :: b).dropWhile p = x :: b := by
  induction a with
  | nil => simp [List.takeWhile_cons, List.dropWhile_cons, hx]
  | cons c cs ih =>
      have hc : p c = true := ha c (List.mem_cons_self c cs)
      have := ih fun y hy => ha y (List.mem_cons_of_mem _ hy)
      simp [List.takeWhile_cons, List.dropWhile_cons, hc, this.1, this.2]

theorem allLatin1_append (a b : String) :
    allLatin1 (a ++ b) = (allLatin1 a && allLatin1 b) := by
  simp [allLatin1, List.all_append]

theorem allLatin1_strJoin (sep : String) (l : List String)
    (hsep : allLatin1 sep = true) (h : ∀ x ∈ l, allLatin1 x = true) :
    allLatin1 (strJoin sep l) = true := by
  induction l with
  | nil => rfl
  | cons a rest ih =>
      cases rest with
      | nil => exact h a (List.mem_cons_self a [])
      | cons b bs =>
          show allLatin1 (a ++ sep ++ strJoin sep (b :: bs)) = true
          rw [allLatin1_append, allLatin1_append]
          rw [h a (List.mem_cons_self a _), hsep,
            ih fun x hx => h x (List.mem_cons_of_mem _ hx)]
          rfl

theorem allLatin1_toWire (d : DataSetType) :
    allLatin1 (DataSetType.toWire d) = true := by
  cases d <;> decide

theorem allLatin1_dataSetsJoin (ds : List DataSetType) :
    allLatin1 (strJoin "," (ds.map DataSetType.toWire)) = true := by
  refine allLatin1_strJoin _ _ (by decide) ?_
  intro x hx
  rw [List.mem_map] at hx
  obtain ⟨d, _, rfl⟩ := hx
  exact allLatin1_toWire d

theorem parseQueryPair_split (k v : List Char) (hk : '=' ∉ k) :
    parseQueryPair (k ++ '=' :: v) =
      (unquotePlus (String.mk k), unquotePlus (String.mk v)) := by
  unfold parseQueryPair
  have h := takeWhile_append_stop (fun c => c ≠ '=') k '=' v
    (fun c hc => by simp; exact fun e => hk (e ▸ hc)) (by simp)
  rw [h.1, h.2]
  rfl

theorem parseQuery_first (q : String) (k vData rest : List Char)
    (hq : q.data = k ++ '=' :: (vData ++ '&' :: rest))
    (hk_amp : '&' ∉ k) (hk_eq : '=' ∉ k) (hv_amp : '&' ∉ vData) :
    parseQuery q =
      (unquotePlus (String.mk k), unquotePlus (String.mk vData)) ::
        (splitOnCharList '&' rest).map parseQueryPair := by
  unfold parseQuery
  rw [hq]
  have hsplit : splitOnCharList '&' (k ++ '=' :: (vData ++ '&' :: rest)) =
      (k ++ '=' :: vData) :: splitOnCharList '&' rest := by
    have hmem : '&' ∉ k ++ '=' :: vData := by
      intro hm
      rcases List.mem_append.mp hm with hm | hm
      · exact hk_amp hm
      · rcases List.mem_cons.mp hm with hm | hm
        · cases hm
        · exact hv_amp hm
    have := splitOnCharList_append '&' (k ++ '=' :: vData) rest hmem
    simpa using this
  rw [hsplit, List.map_cons, parseQueryPair_split k vData hk_eq]

theorem concInv_initial : ConcInv initialConcState := by
  refine ⟨rfl, rfl, ?_, ?_⟩ <;> intro h <;> exact absurd rfl h

theorem concInv_step (s : ConcState) (t : Bool) (h : ConcInv s) :
    ConcInv (stepTask s t) := by
  obtain ⟨h1, h2, h3, h4⟩ := h
  rcases s with ⟨⟨sess, cli⟩, sc, cc, pa, pb⟩
  cases t <;> cases pa <;> cases pb <;> cases sess <;> cases cli <;>
    simp_all [stepTask, initBlockCounted, ConcInv, retryOptions]

theorem concInv_run (sched : List Bool) (s : ConcState) (h : ConcInv s) :
    ConcInv (runSchedule s sched) := by
  induction sched generalizing s with
  | nil => exact h
  | cons t rest ih => exact ih _ (concInv_step s t h)

/-! ## Claims -/

/-- Claim C1: when the final response delivered by the retrying transport has
HTTP status 401 or 403, `_api_wrapper` raises the authentication error
(`WeatherKitApiClientAuthenticationError`) whose message carries the response
body text — the result equals that error exactly, so no communication or
generic error is raised. -/
theorem final_auth_status_raises_authentication_error
    (status : Nat) (body : String) (jsonBody : Option String)
    (h : status = 401 ∨ status = 403) :
    apiWrapper (.response status body jsonBody) =
      .error (.authenticationError ("Invalid credentials: " ++ body)) := by
  rcases h with rfl | rfl <;> rfl

/-- Witness for claim C1 at a final 403 response. -/
theorem final_auth_status_raises_authentication_error_witness :
    apiWrapper (.response 403 "Forbidden: invalid token" none) =
      .error (.authenticationError
        ("Invalid credentials: " ++ "Forbidden: invalid token")) :=
  final_auth_status_raises_authentication_error 403 "Forbidden: invalid token"
    none (Or.inr rfl)

/-- Claim C2 counterexample: `get_availability` performs no deserialization
into the `DataSetType` enumeration — a body with an unrecognized wire token is
returned verbatim, so the result is not the wire image of any sequence of
`DataSetType` values. -/
theorem availability_unrecognized_token_counterexample :
    getAvailabilityResult ["bogusDataSet"] = ["bogusDataSet"] ∧
    ¬ ∃ ds : List DataSetType,
      getAvailabilityResult ["bogusDataSet"] = ds.map DataSetType.toWire := by
  refine ⟨rfl, ?_⟩
  rintro ⟨ds, h⟩
  simp only [getAvailabilityResult] at h
  cases ds with
  | nil => simp at h
  | cons d tl =>
      rw [List.map_cons] at h
      injection h with h1 h2
      cases d <;> exact absurd h1 (by decide)

/-- Claim C2 (amended): `get_availability` returns the response body's token
sequence verbatim (order preserved, unrecognized tokens passed through
unvalidated); when every token is a recognized wire token, the returned
sequence equals, elementwise, the wire tokens of the corresponding ordered
`DataSetType` sequence. -/
theorem availability_passthrough_of_recognized (body : List String)
    (h : ∀ t ∈ body, (parseDataSet t).isSome = true) :
    getAvailabilityResult body = body ∧
    ∃ ds : List DataSetType,
      getAvailabilityResult body = ds.map DataSetType.toWire := by
  refine ⟨rfl, ?_⟩
  induction body with
  | nil => exact ⟨[], rfl⟩
  | cons t ts ih =>
      obtain ⟨ds, hds⟩ := ih fun x hx => h x (List.mem_cons_of_mem _ hx)
      obtain ⟨d, hd⟩ :=
        Option.isSome_iff_exists.mp (h t (List.mem_cons_self t ts))
      refine ⟨d :: ds, ?_⟩
      show t :: ts = DataSetType.toWire d :: ds.map DataSetType.toWire
      have hts : ts = ds.map DataSetType.toWire := hds
      rw [parseDataSet_toWire t d hd, ← hts]

/-- Witness for the amended claim C2 on a fully recognized body. -/
theorem availability_passthrough_of_recognized_witness :
    (∀ t ∈ ["currentWeather", "weatherAlerts"],
      (parseDataSet t).isSome = true) ∧
    ∃ ds : List DataSetType,
      getAvailabilityResult ["currentWeather", "weatherAlerts"] =
        ds.map DataSetType.toWire :=
  ⟨by decide, (availability_passthrough_of_recognized _ (by decide)).2⟩

/-- Claim C3: for fixed credentials at a fixed current time (both clock
readings equal), the token minted by `_generate_jwt` has `exp = iat + 600`
seconds exactly, payload `iss = team_id` and `sub = service_id`, and header
`kid = key_id`, `id = team_id.service_id`, with signing algorithm ES256. -/
theorem generateJwt_claims_and_header (c : Credentials) (now₁ now₂ : Int)
    (h : now₂ = now₁) :
    (generateJwt c now₁ now₂).payload.exp =
      (generateJwt c now₁ now₂).payload.iat + 600 ∧
    (generateJwt c now₁ now₂).payload.iss = c.teamId ∧
    (generateJwt c now₁ now₂).payload.sub = c.serviceId ∧
    (generateJwt c now₁ now₂).header.kid = c.keyId ∧
    (generateJwt c now₁ now₂).header.id = c.teamId ++ "." ++ c.serviceId ∧
    (generateJwt c now₁ now₂).header.alg = "ES256" := by
  subst h
  exact ⟨rfl, rfl, rfl, rfl, rfl, rfl⟩

/-- Witness for claim C3 at concrete credentials and a concrete instant. -/
theorem generateJwt_claims_and_header_witness :
    (generateJwt ⟨"KEY123", "com.example.weather", "TEAM42", "pem"⟩
        1700000000 1700000000).payload.exp =
      (generateJwt ⟨"KEY123", "com.example.weather", "TEAM42", "pem"⟩
        1700000000 1700000000).payload.iat + 600 ∧
    (generateJwt ⟨"KEY123", "com.example.weather", "TEAM42", "pem"⟩
        1700000000 1700000000).payload.iss = "TEAM42" ∧
    (generateJwt ⟨"KEY123", "com.example.weather", "TEAM42", "pem"⟩
        1700000000 1700000000).payload.sub = "com.example.weather" ∧
    (generateJwt ⟨"KEY123", "com.example.weather", "TEAM42", "pem"⟩
        1700000000 1700000000).header.kid = "KEY123" ∧
    (generateJwt ⟨"KEY123", "com.example.weather", "TEAM42", "pem"⟩
        1700000000 1700000000).header.id = "TEAM42" ++ "." ++
        "com.example.weather" ∧
    (generateJwt ⟨"KEY123", "com.example.weather", "TEAM42", "pem"⟩
        1700000000 1700000000).header.alg = "ES256" :=
  generateJwt_claims_and_header _ 1700000000 1700000000 rfl

/-- Claim C4: an `hourly_start`/`hourly_end` carrying timezone information is
formatted as the UTC-converted, offset-stripped wall time rendered ISO-8601
with a literal trailing `Z`; a naive timestamp is formatted as-is with `Z`
appended; the spec's example `2024-01-01T05:00:00+05:00` produces
`2024-01-01T00:00:00Z`. -/
theorem hourly_query_value_utc (dt : PyDatetime) :
    (dt.tzOffset.isSome = true →
      hourlyQueryValue dt = isoformat (utcEpoch dt) ++ "Z") ∧
    (dt.tzOffset = none →
      hourlyQueryValue dt = isoformat dt.naive ++ "Z") ∧
    hourlyQueryValue { naive := 1704085200, tzOffset := some 18000 } =
      "2024-01-01T00:00:00Z" := by
  refine ⟨?_, ?_, by decide⟩
  · intro h
    unfold hourlyQueryValue normalizeHourly
    rw [if_pos h]
    rfl
  · intro h
    unfold hourlyQueryValue normalizeHourly
    rw [h]
    rfl

/-- Witness for claim C4 at the spec's example timestamp (UTC offset +05:00)
and at a naive timestamp. -/
theorem hourly_query_value_utc_witness :
    hourlyQueryValue { naive := 1704085200, tzOffset := some 18000 } =
      isoformat (utcEpoch { naive := 1704085200, tzOffset := some 18000 }) ++
        "Z" ∧
    hourlyQueryValue { naive := 1704067200, tzOffset := none } =
      isoformat 1704067200 ++ "Z" :=
  ⟨(hourly_query_value_utc _).1 rfl, (hourly_query_value_utc _).2.1 rfl⟩

/-- Claim C5: for every list of `DataSetType` values, the `dataSets` parameter
of the query string constructed by `get_weather_data` — recovered by parsing
the urlencoded query — is exactly the comma-join of the corresponding wire
tokens, in input order. -/
theorem dataSets_query_param (ds : List DataSetType) (hs he : PyDatetime) :
    List.lookup "dataSets" (parseQuery (weatherQueryString ds hs he)) =
      some (String.intercalate "," (ds.map DataSetType.toWire)) := by
  rw [← strJoin_eq_intercalate]
  have hlat : allLatin1 (strJoin "," (ds.map DataSetType.toWire)) = true :=
    allLatin1_dataSetsJoin ds
  have hq : (weatherQueryString ds hs he).data =
      (quotePlus "dataSets").data ++ '=' ::
        ((quotePlus (strJoin "," (ds.map DataSetType.toWire))).data ++ '&' ::
          (quotePlus "hourlyStart" ++ "=" ++ quotePlus (hourlyQueryValue hs) ++
            "&" ++ (quotePlus "hourlyEnd" ++ "=" ++
              quotePlus (hourlyQueryValue he))).data) := by
    show (urlencodePy _).data = _
    simp only [urlencodePy, List.map_cons, List.map_nil, strJoin,
      String.data_append]
    simp [show ("=" : String).data = ['='] from rfl,
      show ("&" : String).data = ['&'] from rfl]
  rw [parseQuery_first _ _ _ _ hq (by decide) (by decide)
    (amp_not_mem_quotePlus _ hlat)]
  have hkey : unquotePlus (String.mk (quotePlus "dataSets").data) =
      "dataSets" := by decide
  rw [hkey]
  have hval : unquotePlus (String.mk
      (quotePlus (strJoin "," (ds.map DataSetType.toWire))).data) =
      strJoin "," (ds.map DataSetType.toWire) :=
    unquotePlus_quotePlus _ hlat
  rw [hval, List.lookup]
  simp

/-- Claim C6: the retry executor is configured with maximum 3 attempts,
exponential backoff starting at 1 second, and retries on statuses 404, 401,
403 and every 5xx; the whole dispatch runs under a 20-second wall-clock
timeout; and the configuration happens once per client lifetime (the first
call configures it, re-running the initialization changes nothing, and an
already-set executor is never reconfigured). -/
theorem retry_and_timeout_configuration :
    retryOptions.attempts = 3 ∧
    retryOptions.statuses = [404, 401, 403] ∧
    retryOptions.startTimeout = 1 ∧
    apiWrapperTimeoutSeconds = 20 ∧
    shouldRetryStatus retryOptions 404 = true ∧
    shouldRetryStatus retryOptions 401 = true ∧
    shouldRetryStatus retryOptions 403 = true ∧
    (∀ s : Nat, 500 ≤ s → shouldRetryStatus retryOptions s = true) ∧
    ensureInit { session := false, client := none } =
      { session := true, client := some retryOptions } ∧
    (∀ st : LazyState, ensureInit (ensureInit st) = ensureInit st) ∧
    (∀ (st : LazyState) (o : ExponentialRetryOptions), st.client = some o →
      (ensureInit st).client = some o) := by
  refine ⟨rfl, rfl, rfl, rfl, by decide, by decide, by decide, ?_,
    by decide, ?_, ?_⟩
  · intro s h
    simp [shouldRetryStatus, retryOptions, decide_eq_true h]
  · intro st
    rcases st with ⟨sess, cli⟩
    cases sess <;> cases cli <;> simp [ensureInit]
  · intro st o h
    rcases st with ⟨sess, cli⟩
    cases sess <;> simp_all [ensureInit]

/-- Witness for claim C6: status 503 is retried, and re-running the lazy
initialization on a fresh and on an initialized client changes nothing. -/
theorem retry_and_timeout_configuration_witness :
    shouldRetryStatus retryOptions 503 = true ∧
    ensureInit (ensureInit { session := false, client := none }) =
      ensureInit { session := false, client := none } ∧
    (ensureInit { session := true, client := some retryOptions }).client =
      some retryOptions := by
  obtain ⟨-, -, -, -, -, -, -, h8, -, h10, h11⟩ :=
    retry_and_timeout_configuration
  exact ⟨h8 503 (by decide), h10 _, h11 _ _ rfl⟩

/-- Claim C7 counterexample: the claim says every non-2xx, non-auth final
status raises a communication error, but `response.raise_for_status()` only
raises for statuses at or above 400 — a final status 300 whose body decodes as
JSON is returned as a success, raising nothing. -/
theorem non_auth_non_2xx_success_counterexample :
    apiWrapper (.response 300 "redirect body" (some "parsed")) =
      .ok "parsed" ∧
    ¬ ∃ m, apiWrapper (.response 300 "redirect body" (some "parsed")) =
      .error (.communicationError m) := by
  refine ⟨rfl, ?_⟩
  rintro ⟨m, hm⟩
  rw [show apiWrapper (.response 300 "redirect body" (some "parsed")) =
    .ok "parsed" from rfl] at hm
  simp at hm

/-- Claim C7 (amended): every failure surfaces as one of the three error kinds
of the taxonomy (the three subclasses of `WeatherKitApiClientError` modelled
by `ApiError`), none swallowed: a final status at or above 400 other than
401/403 raises the communication error, as do the 20-second timeout and
client/DNS errors; a body that fails to decode as JSON, or any other
unexpected exception, raises the generic client error wrapping the cause; and
a non-error return happens only for a response below status 400 (and not
401/403) whose body decoded as JSON. -/
theorem error_taxonomy_classification :
    (∀ (st : Nat) (b : String) (j : Option String),
      400 ≤ st → st ≠ 401 → st ≠ 403 →
      ∃ m, apiWrapper (.response st b j) = .error (.communicationError m)) ∧
    (∀ m, apiWrapper (.raised (.timeoutError m)) =
      .error (.communicationError
        ("Timeout error fetching information: " ++ m))) ∧
    (∀ e : PyException, e.isClientOrGaiError = true →
      apiWrapper (.raised e) = .error (.communicationError
        ("Error fetching information: " ++ e.message))) ∧
    (∀ (st : Nat) (b : String), st < 400 → st ≠ 401 → st ≠ 403 →
      apiWrapper (.response st b none) = .error (.genericError
        ("An unexpected error occurred: " ++ b))) ∧
    (∀ e : PyException, e.isTimeout = false → e.isClientOrGaiError = false →
      apiWrapper (.raised e) = .error (.genericError
        ("An unexpected error occurred: " ++ e.message))) ∧
    (∀ (r : FetchOutcome) (v : String), apiWrapper r = .ok v →
      ∃ st b, r = .response st b (some v) ∧ st < 400 ∧ st ≠ 401 ∧ st ≠ 403) := by
  refine ⟨?_, ?_, ?_, ?_, ?_, ?_⟩
  · intro st b j h h1 h2
    refine ⟨"Error fetching information: " ++
      (PyException.clientResponseError st "").message, ?_⟩
    unfold apiWrapper apiWrapperTry raiseForStatus
    have hne : ¬(st = 401 ∨ st = 403) := by tauto
    simp only [if_neg hne, if_pos h]
    rfl
  · intro m
    rfl
  · intro e he
    cases e <;> simp_all [apiWrapper, apiWrapperTry, classifyRaised,
      PyException.isTimeout, PyException.isClientOrGaiError,
      PyException.message]
  · intro st b h h1 h2
    unfold apiWrapper apiWrapperTry raiseForStatus
    have hne : ¬(st = 401 ∨ st = 403) := by tauto
    have hlt : ¬(400 ≤ st) := by omega
    simp only [if_neg hne, if_neg hlt]
    rfl
  · intro e h1 h2
    cases e <;> simp_all [apiWrapper, apiWrapperTry, classifyRaised,
      PyException.isTimeout, PyException.isClientOrGaiError,
      PyException.message]
  · intro r v h
    cases r with
    | raised e => simp [apiWrapper, apiWrapperTry] at h
    | response st b j =>
        by_cases h1 : st = 401 ∨ st = 403
        · simp [apiWrapper, apiWrapperTry, if_pos h1] at h
        · by_cases h2 : 400 ≤ st
          · simp [apiWrapper, apiWrapperTry, raiseForStatus, if_neg h1,
              if_pos h2] at h
          · cases j with
            | none =>
                simp [apiWrapper, apiWrapperTry, raiseForStatus, if_neg h1,
                  if_neg h2] at h
            | some d =>
                simp [apiWrapper, apiWrapperTry, raiseForStatus, if_neg h1,
                  if_neg h2] at h
                push_neg at h1
                exact ⟨st, b, by rw [h], by omega, h1.1, h1.2⟩

/-- Witness for the amended claim C7: a final 500 response maps to the
communication error, a 200 response with an undecodable body to the generic
error, a DNS failure to the communication error, and the only success shape
is an OK response with decoded JSON. -/
theorem error_taxonomy_classification_witness :
    (∃ m, apiWrapper (.response 500 "oops" none) =
      .error (.communicationError m)) ∧
    apiWrapper (.response 200 "not json" none) =
      .error (.genericError ("An unexpected error occurred: " ++ "not json")) ∧
    apiWrapper (.raised (.gaierror "dns down")) =
      .error (.communicationError
        ("Error fetching information: " ++ "dns down")) ∧
    ∃ st b, (FetchOutcome.response 200 "body" (some "doc")) =
      .response st b (some "doc") ∧ st < 400 ∧ st ≠ 401 ∧ st ≠ 403 := by
  obtain ⟨h1, -, h3, h4, -, h6⟩ := error_taxonomy_classification
  refine ⟨h1 500 "oops" none (by omega) (by omega) (by omega), ?_, ?_, ?_⟩
  · exact h4 200 "not json" (by omega) (by omega) (by omega)
  · exact h3 (.gaierror "dns down") rfl
  · exact h6 (.response 200 "body" (some "doc")) "doc" rfl

/-- Claim C8: when `hourly_start` and `hourly_end` are omitted and the clock
reads the same fixed instant at both `datetime.now` calls, `get_weather_data`
uses `hourly_start` equal to the current UTC time and `hourly_end` equal to
the current UTC time plus 24 hours (86400 seconds), both normalized to naive
UTC wall times. -/
theorem defaulted_hourly_window (now₁ now₂ : Int) (h : now₂ = now₁) :
    resolveHourlyStart now₁ none = { naive := now₁, tzOffset := none } ∧
    resolveHourlyEnd now₂ none =
      { naive := now₁ + 86400, tzOffset := none } := by
  subst h
  constructor <;>
    simp [resolveHourlyStart, resolveHourlyEnd, normalizeHourly,
      astimezoneUTC, replaceTzinfoNone]

/-- Witness for claim C8 at a concrete clock reading. -/
theorem defaulted_hourly_window_witness :
    resolveHourlyStart 1700000000 none =
      { naive := 1700000000, tzOffset := none } ∧
    resolveHourlyEnd 1700000000 none =
      { naive := 1700000000 + 86400, tzOffset := none } :=
  defaulted_hourly_window 1700000000 1700000000 rfl

/-- Claim C9: under the cooperative (asyncio) interleaving model, for every
schedule of two concurrent first calls on a client with no pre-supplied
session, at most one session and one retry executor are ever constructed;
once both calls complete, exactly one of each was constructed; and the
schedule that runs both calls to completion succeeds for both. -/
theorem concurrent_first_calls_single_init (sched : List Bool) :
    (runSchedule initialConcState sched).sessionsCreated ≤ 1 ∧
    (runSchedule initialConcState sched).clientsCreated ≤ 1 ∧
    ((runSchedule initialConcState sched).pcA = .done →
      (runSchedule initialConcState sched).pcB = .done →
        (runSchedule initialConcState sched).sessionsCreated = 1 ∧
        (runSchedule initialConcState sched).clientsCreated = 1) ∧
    (runSchedule initialConcState [false, true, false, true]).pcA = .done ∧
    (runSchedule initialConcState [false, true, false, true]).pcB = .done := by
  obtain ⟨h1, h2, h3, h4⟩ := concInv_run sched _ concInv_initial
  refine ⟨?_, ?_, ?_, by decide, by decide⟩
  · rw [h1]; split <;> omega
  · rw [h2]; split <;> omega
  · intro ha hb
    have hA := h3 (by rw [ha]; exact fun e => nomatch e)
    rw [h1, h2, hA.1, hA.2]
    exact ⟨rfl, rfl⟩

/-- Witness for claim C9: the alternating schedule completes both calls with
exactly one session and one retry executor constructed. -/
theorem concurrent_first_calls_single_init_witness :
    (runSchedule initialConcState [true, false, true, false]).pcA = .done ∧
    (runSchedule initialConcState [true, false, true, false]).pcB = .done ∧
    (runSchedule initialConcState
      [true, false, true, false]).sessionsCreated = 1 ∧
    (runSchedule initialConcState
      [true, false, true, false]).clientsCreated = 1 := by
  have h := concurrent_first_calls_single_init [true, false, true, false]
  exact ⟨by decide, by decide, (h.2.2.1 (by decide) (by decide)).1,
    (h.2.2.1 (by decide) (by decide)).2⟩

/-- Claim C10: `get_weather_data` never mutates the `data_sets` list it is
given — its only use of the list is the comma-join, which returns the list
unchanged — so the shared mutable default stays `[CURRENT_WEATHER]` after any
number of defaulted calls, and every defaulted call requests exactly the
`currentWeather` data set. -/
theorem data_sets_never_mutated :
    (∀ ds : List DataSetType, (getWeatherDataDataSetsUse ds).2 = ds) ∧
    (∀ n : Nat, defaultAfterCalls n = [DataSetType.currentWeather]) ∧
    (∀ n : Nat,
      (getWeatherDataDataSetsUse (defaultAfterCalls n)).1 =
        "currentWeather") := by
  have h2 : ∀ n : Nat, defaultAfterCalls n = [DataSetType.currentWeather] := by
    intro n
    induction n with
    | zero => rfl
    | succ k ih => simp [defaultAfterCalls, getWeatherDataDataSetsUse, ih]
  refine ⟨fun ds => rfl, h2, fun n => ?_⟩
  rw [h2 n]
  rfl

end WeatherKit
